import Mathlib

/-!
A shallow embedding of the AWS cloud storage environment of rocksdb-cloud.

The embedding follows src/cloud/aws_env.cc: the dispatcher methods of
AwsEnv (FileExists, GetChildren, DeleteFile, RenameFile, NewWritableFile,
NewRandomAccessFile, the constructor and factory, and KinesisSystem::Retry)
are translated function by function.  The object-store and stream file
classes (S3ReadableFile, S3WritableFile, KinesisWritableFile in
cloud/aws_file.h) and the filename classifier (cloud/filename.h) are not
part of the provided sources; where they are needed they are modelled from
the specification and marked as such in their doc comments.  Machine state
(the S3 bucket, the local posix filesystem, the Kinesis stream) is passed
explicitly as finite association lists from names to byte lists.
-/

namespace RocksCloud

/-- Return status, mirroring the rocksdb Status values that appear in
src/cloud/aws_env.cc: OK, NotFound, IOError, NotSupported, InvalidArgument
and TimedOut. -/
inductive Status where
  | ok : Status
  | notFound (msg : String) : Status
  | ioError (msg : String) : Status
  | notSupported (msg : String) : Status
  | invalidArgument (msg : String) : Status
  | timedOut : Status
deriving Repr, DecidableEq

/-- Status::ok(): only the OK status is a success. -/
def Status.isOk : Status → Bool
  | .ok => true
  | _ => false

/-- Modelled from the spec: the filename classifier (spec section 4.1; the
function IsSstFile lives in cloud/filename.h which is not among the provided
sources).  A data file is a name carrying the data-file extension. -/
def IsSstFile (fname : String) : Bool := ".sst".data.isSuffixOf fname.data

/-- Modelled from the spec: a log file carries the write-ahead-log extension
(spec section 4.1; IsLogFile lives in cloud/filename.h which is not among the
provided sources). -/
def IsLogFile (fname : String) : Bool := ".log".data.isSuffixOf fname.data

/-- AwsEnv::GetFileType (aws_env.cc lines 122-129): returns the pair
(sstFile, logFile); the log test runs only when the name is not a data
file, so the two flags are never both true. -/
def GetFileType (fname : String) : Bool × Bool :=
  let sst := IsSstFile fname
  (sst, if sst then false else IsLogFile fname)

/-- A finite filesystem or object store: an association list from a file
name (or object key) to its byte content.  The head entry for a name is the
current one. -/
abbrev FileMap := List (String × List Nat)

/-- Content stored under a name, if any. -/
def fmLookup (fs : FileMap) (f : String) : Option (List Nat) :=
  (fs.find? (fun p => p.1 == f)).map (fun p => p.2)

/-- Store content under a name, replacing any previous entry. -/
def fmInsert (fs : FileMap) (f : String) (d : List Nat) : FileMap :=
  (f, d) :: fs.filter (fun p => p.1 != f)

/-- Remove every entry stored under a name. -/
def fmErase (fs : FileMap) (f : String) : FileMap :=
  fs.filter (fun p => p.1 != f)

/-- A record on the Kinesis log stream: Append, Delete or Close, as written
by KinesisWritableFile (spec section 3, WAL record). -/
inductive LogRecord where
  | append (path : String) (payload : List Nat)
  | del (path : String)
  | closed (path : String)
deriving Repr, DecidableEq

/-- The state an AwsEnv instance acts on: the keep_local_sst_files_ policy
flag of the constructor, the S3 bucket contents, the local posix filesystem
and the Kinesis stream, plus the tailer cache directory name. -/
structure AwsEnvState where
  keepLocalSstFiles : Bool
  s3 : FileMap
  localFs : FileMap
  stream : List LogRecord
  cacheDir : String
deriving Repr, DecidableEq

/-- Env::Default()->FileExists on the local filesystem: OK when the file is
present, NotFound otherwise. -/
def posixFileExists (fs : FileMap) (fname : String) : Status :=
  match fmLookup fs fname with
  | some _ => .ok
  | none => .notFound fname

/-- Modelled from the spec: the ranged object get of the store adapter
(S3ReadableFile::Read in cloud/aws_file.h, not among the provided sources):
returns the requested byte range of the object, or NotFound when the object
is absent; offset 0 with length 0 is the approved existence probe (spec
section 4.2). -/
def s3Get (s3 : FileMap) (key : String) (offset len : Nat) :
    Except Status (List Nat) :=
  match fmLookup s3 key with
  | none => .error (.notFound key)
  | some data => .ok ((data.drop offset).take len)

/-- AwsEnv::PathExistsInS3 (aws_env.cc lines 413-449): existence of a path in
S3 is decided by reading zero bytes from the object, never by listing; the
isfile flag only gates an informational log about a missing local copy. -/
def PathExistsInS3 (env : AwsEnvState) (fname : String) (isfile : Bool) :
    Status :=
  match s3Get env.s3 fname 0 0 with
  | .error e => e
  | .ok _ => .ok

/-- Modelled from the spec: KinesisSystem::GetCachePath (not among the
provided sources) maps a log-file name into the tailer cache directory (spec
section 4.7); modelled as prepending the cache directory name. -/
def GetCachePath (cacheDir : String) (fname : String) : String :=
  cacheDir ++ fname

/-- KinesisSystem::Retry applied to a closure whose outcome never changes
across attempts, which is the case for the pure local-filesystem checks the
log-file branches wrap: a successful result returns at once, a failing one
is retried until the budget expires and then reported as TimedOut. -/
def retryFixed (st : Status) : Status :=
  if st.isOk then st else .timedOut

/-- AwsEnv::FileExists (aws_env.cc lines 365-407): a data file is checked on
the local filesystem when keep_local_sst_files_ is set and through
PathExistsInS3 otherwise; a log file is checked at its tailer cache path
under Retry; anything else is checked locally. -/
def FileExists (env : AwsEnvState) (fname : String) : Status :=
  let t := GetFileType fname
  if t.1 then
    if env.keepLocalSstFiles then posixFileExists env.localFs fname
    else PathExistsInS3 env fname true
  else if t.2 then
    retryFixed (posixFileExists env.localFs (GetCachePath env.cacheDir fname))
  else
    posixFileExists env.localFs fname

/-- The string starts with the given leading part. -/
def strStartsWith (pre k : String) : Bool := pre.data.isPrefixOf k.data

/-- AwsEnv::GetChildrenFromS3 (aws_env.cc lines 454-513): lists the bucket
with the given path as the listing key filter, page by page, and returns
every fetched key; the loop only keeps keys that truly start with the path,
which the store guarantees for a filtered listing. -/
def GetChildrenFromS3 (env : AwsEnvState) (path : String) : List String :=
  (env.s3.map (fun p => p.1)).filter (fun k => strStartsWith path k)

/-- Env::Default()->GetChildren on the local filesystem: the stored names
under the given directory path. -/
def posixGetChildren (fs : FileMap) (path : String) : List String :=
  (fs.map (fun p => p.1)).filter (fun k => strStartsWith path k)

/-- AwsEnv::GetChildren (aws_env.cc lines 515-557): the S3 listing of the
path, followed by the local entries that are not data files; a local sst
file is skipped because an sst file that exists locally but not in S3 is as
good as nonexistent for durability. -/
def GetChildren (env : AwsEnvState) (path : String) : List String :=
  let fromS3 := GetChildrenFromS3 env path
  let localFiles := posixGetChildren env.localFs path
  fromS3 ++ localFiles.filter (fun f => !(IsSstFile f))

/-- AwsEnv::DeletePathInS3 (aws_env.cc lines 602-632): issues DeleteObject;
when the store answers with a no-such-key class error, which it does for an
absent object, the code maps it to Status::NotFound and returns that status
to its caller; a present object is removed with status OK. -/
def DeletePathInS3 (env : AwsEnvState) (fname : String) : Status × FileMap :=
  match fmLookup env.s3 fname with
  | none => (.notFound fname, env.s3)
  | some _ => (.ok, fmErase env.s3 fname)

/-- AwsEnv::DeleteFile (aws_env.cc lines 559-597): a data file is deleted
from S3 at once by DeletePathInS3, and when that succeeded and
keep_local_sst_files_ is set the local copy is unlinked as well; a log file
gets a Delete record appended to the stream (KinesisWritableFile::LogDelete,
modelled from the spec since cloud/aws_file.h is not among the provided
sources); anything else is unlinked locally. -/
def DeleteFile (env : AwsEnvState) (fname : String) : Status × AwsEnvState :=
  let t := GetFileType fname
  if t.1 then
    let r := DeletePathInS3 env fname
    let env1 := { env with s3 := r.2 }
    if r.1.isOk && env.keepLocalSstFiles then
      match fmLookup env1.localFs fname with
      | some _ => (.ok, { env1 with localFs := fmErase env1.localFs fname })
      | none => (.notFound fname, env1)
    else (r.1, env1)
  else if t.2 then
    (.ok, { env with stream := env.stream ++ [LogRecord.del fname] })
  else
    match fmLookup env.localFs fname with
    | some _ => (.ok, { env with localFs := fmErase env.localFs fname })
    | none => (.notFound fname, env)

/-- Modelled from the spec: S3WritableFile (cloud/aws_file.h, not among the
provided sources) buffers a data file locally and uploads the bytes to the
bucket on close (spec section 4.4); the local cached copy is retained
exactly when keep_local_sst is set.  KinesisWritableFile batches the bytes
as Append records and logs a Close record on close.  The dispatch of the
three cases is AwsEnv::NewWritableFile (aws_env.cc lines 245-293); this
function is that dispatch followed by writing the whole content and closing
the file. -/
def writeFileAndClose (env : AwsEnvState) (fname : String) (data : List Nat) :
    Status × AwsEnvState :=
  let t := GetFileType fname
  if !t.1 && !t.2 then
    (.ok, { env with localFs := fmInsert env.localFs fname data })
  else if t.1 then
    let withLocal := fmInsert env.localFs fname data
    let localAfter :=
      if env.keepLocalSstFiles then withLocal else fmErase withLocal fname
    (.ok, { env with s3 := fmInsert env.s3 fname data, localFs := localAfter })
  else
    (.ok, { env with stream :=
              env.stream ++ [LogRecord.append fname data,
                             LogRecord.closed fname] })

/-- AwsEnv::NewRandomAccessFile (aws_env.cc lines 188-242) followed by
reading the whole file: a data file is opened on the local filesystem when
keep_local_sst_files_ is set, and through S3ReadableFile (ranged reads from
the bucket, modelled from the spec) otherwise; a log file is read from its
tailer cache path under Retry; anything else is read locally. -/
def readFileFull (env : AwsEnvState) (fname : String) :
    Except Status (List Nat) :=
  let t := GetFileType fname
  if t.1 then
    if env.keepLocalSstFiles then
      match fmLookup env.localFs fname with
      | some d => .ok d
      | none => .error (.notFound fname)
    else
      match fmLookup env.s3 fname with
      | some d => .ok d
      | none => .error (.notFound fname)
  else if t.2 then
    match fmLookup env.localFs (GetCachePath env.cacheDir fname) with
    | some d => .ok d
    | none => .error .timedOut
  else
    match fmLookup env.localFs fname with
    | some d => .ok d
    | none => .error (.notFound fname)

/-- The outcome of AwsEnv::RenameFile: the returned status, the local
filesystem and S3 bucket afterwards, and whether the server-side CopyObject
request of the trailing code was issued. -/
structure RenameResult where
  status : Status
  localFs : FileMap
  s3 : FileMap
  s3CopyIssued : Bool
deriving Repr, DecidableEq

/-- Env::Default()->RenameFile on the local filesystem. -/
def posixRename (fs : FileMap) (src target : String) : Status × FileMap :=
  match fmLookup fs src with
  | none => (.notFound src, fs)
  | some d => (.ok, fmInsert (fmErase fs src) target d)

/-- The trailing copy-object code of AwsEnv::RenameFile (aws_env.cc lines
927-951): issues a server-side CopyObject whose destination bucket and
destination key are both the empty string. -/
def renameCopyTail (env : AwsEnvState) (src : String) : RenameResult :=
  { status := .ioError src, localFs := env.localFs, s3 := env.s3,
    s3CopyIssued := true }

/-- AwsEnv::RenameFile (aws_env.cc lines 893-951): classifies the TARGET
path; when it is neither a data nor a log file the rename happens on the
local filesystem only; a data-file or log-file target is rejected with
NotSupported before any remote request; the trailing copy code comes after
both rejections. -/
def RenameFile (env : AwsEnvState) (src target : String) : RenameResult :=
  let t := GetFileType target
  if !t.1 && !t.2 then
    let r := posixRename env.localFs src target
    { status := r.1, localFs := r.2, s3 := env.s3, s3CopyIssued := false }
  else if t.1 then
    { status := .notSupported (src ++ " " ++ target), localFs := env.localFs,
      s3 := env.s3, s3CopyIssued := false }
  else if t.2 then
    { status := .notSupported (src ++ " " ++ target), localFs := env.localFs,
      s3 := env.s3, s3CopyIssued := false }
  else
    renameCopyTail env src

/-- The loop body of KinesisSystem::Retry (aws_env.cc lines 1005-1027),
with the attempt outcomes given as a sequence and real time modelled by
charging each failed attempt exactly its 100 ms sleep, so the budget check
after the i-th attempt sees now = start + (i + 1) * 100000 microseconds.
The fuel argument only bounds the recursion; Retry hands it enough fuel for
every iteration the budget admits. -/
def RetryGo (results : Nat → Status) (budgetMicros : Nat) :
    Nat → Nat → Status
  | 0, _ => .timedOut
  | fuel + 1, i =>
    let stat := results i
    if stat.isOk then stat
    else if budgetMicros < (i + 1) * 100000 then .timedOut
    else RetryGo results budgetMicros fuel (i + 1)

/-- KinesisSystem::Retry (aws_env.cc lines 1005-1027): run the closure; a
success returns immediately; ANY failure is followed by a 100 ms sleep and,
once start + budget < now, the loop stops and returns Status::TimedOut in
place of the closure's own status. -/
def Retry (results : Nat → Status) (budgetMicros : Nat) : Status :=
  RetryGo results budgetMicros (budgetMicros / 100000 + 1) 0

/-- The outcomes of the external calls made by the AwsEnv constructor
(aws_env.cc lines 21-93): bucket creation, Kinesis client creation, stream
creation, and the tailer's startup status. -/
structure CtorEffects where
  bucketCreate : Status
  kinesisClientOk : Bool
  streamCreate : Status
  tailerStatus : Status
deriving Repr, DecidableEq

/-- The value of create_bucket_status_ after the AwsEnv constructor
(aws_env.cc lines 21-93): each later stage runs only while the status is
still OK, so the field holds the first failure, or the tailer status when
everything before succeeded. -/
def constructorStatus (e : CtorEffects) : Status :=
  if !e.bucketCreate.isOk then e.bucketCreate
  else if !e.kinesisClientOk then .ioError "Error in creating Kinesis client"
  else if !e.streamCreate.isOk then e.streamCreate
  else e.tailerStatus

/-- A constructed AwsEnv object as far as validity is concerned: it carries
the create_bucket_status_ field the constructor left behind. -/
structure AwsEnvHandle where
  createBucketStatus : Status
deriving Repr, DecidableEq

/-- AwsEnv::IsValid (aws_env.cc lines 103-105): returns
create_bucket_status_. -/
def IsValid (h : AwsEnvHandle) : Status := h.createBucketStatus

/-- AwsEnv::NewAwsEnv (aws_env.cc lines 970-980): constructs an AwsEnv and
returns null unless IsValid().ok() holds on it. -/
def NewAwsEnv (e : CtorEffects) : Option AwsEnvHandle :=
  let h : AwsEnvHandle := { createBucketStatus := constructorStatus e }
  if (IsValid h).isOk then some h else none

/-- Modelled from the spec: the cloud-manifest coordinator (spec section
4.5) is not among the provided sources; only its test,
CloudTest::TwoConcurrentWriters (db_cloud_test.cc lines 760-846), is.  The
state of one shared object-store path: the epoch the CLOUDMANIFEST pointer
object currently names, the written key-value entries each tagged with the
epoch of the writer that produced them (most recent first), and the next
fresh epoch of the monotonic mint. -/
structure CloudPrefixState where
  pointerEpoch : Option Nat
  entries : List (Nat × String × String)
  nextEpoch : Nat
deriving Repr, DecidableEq

/-- Modelled from the spec: the writer open protocol (spec section 4.5)
mints a fresh epoch and atomically overwrites the CLOUDMANIFEST pointer to
name it, making this writer the owner of record. -/
def openAsWriter (s : CloudPrefixState) : Nat × CloudPrefixState :=
  (s.nextEpoch,
   { s with pointerEpoch := some s.nextEpoch, nextEpoch := s.nextEpoch + 1 })

/-- Modelled from the spec: a write by the holder of the given epoch lands
in the shared path under that epoch's namespace (spec section 4.5, remap). -/
def writeKey (s : CloudPrefixState) (epoch : Nat) (k v : String) :
    CloudPrefixState :=
  { s with entries := (epoch, k, v) :: s.entries }

/-- Modelled from the spec: a reader that opens the path loads the pointed
cloud-manifest and reads through remap, so it observes exactly the most
recent entry for a key whose epoch is the one the pointer names (spec
section 4.5, read path via the pointer). -/
def readerObserve (s : CloudPrefixState) (k : String) : Option String :=
  match s.pointerEpoch with
  | none => none
  | some e =>
    (s.entries.find? (fun t => t.1 == e && t.2.1 == k)).map (fun t => t.2.2)

/-- A batch of writes all issued by the holder of one epoch, oldest
first. -/
def applyWrites (s : CloudPrefixState) (epoch : Nat)
    (ws : List (String × String)) : CloudPrefixState :=
  ws.foldl (fun acc kv => writeKey acc epoch kv.1 kv.2) s

/-! Theorems.  Each claim of the specification is settled below; concrete
environments used by evaluations and witnesses come first. -/

/-- An environment with keep_local_sst_files set and empty stores, the
configuration of CloudTest::CopyToFromS3 and CloudTest::DelayFileDeletion. -/
def envKeepLocalEmpty : AwsEnvState :=
  { keepLocalSstFiles := true, s3 := [], localFs := [], stream := [],
    cacheDir := "" }

/-- The state after the write phase of CloudTest::CopyToFromS3: the byte
sequence B = [104, 101, 108, 108, 111] written to the data file
/db_cloud/100000.sst through NewWritableFile and closed, with
keep_local_sst_files set. -/
def roundTripAfterWrite : AwsEnvState :=
  (writeFileAndClose envKeepLocalEmpty "/db_cloud/100000.sst"
    [104, 101, 108, 108, 111]).2

/-- The state after the test then deletes the local copy through the base
environment. -/
def roundTripAfterLocalDelete : AwsEnvState :=
  { roundTripAfterWrite with
    localFs := fmErase roundTripAfterWrite.localFs "/db_cloud/100000.sst" }

/-- C1: the round trip of CloudTest::CopyToFromS3 (db_cloud_test.cc lines
499-536) evaluated on the code of src/cloud/aws_env.cc.  The test writes a
data file through NewWritableFile with keep_local_sst_files set, deletes the
local copy, and expects NewRandomAccessFile to read the bytes back from the
bucket.  The upload does reach the bucket, but NewRandomAccessFile with
keep_local_sst_files set dispatches to the local posix environment, so the
read fails with NotFound; only with keep_local_sst_files unset does the
remote object reconstruct the file. -/
theorem C1_roundtrip_eval :
    fmLookup roundTripAfterLocalDelete.s3 "/db_cloud/100000.sst" =
      some [104, 101, 108, 108, 111]
    ∧ readFileFull roundTripAfterLocalDelete "/db_cloud/100000.sst" =
        Except.error (Status.notFound "/db_cloud/100000.sst")
    ∧ readFileFull { roundTripAfterLocalDelete with keepLocalSstFiles := false }
        "/db_cloud/100000.sst" = Except.ok [104, 101, 108, 108, 111] :=
  ⟨rfl, rfl, rfl⟩

/-- The state after the create phase of CloudTest::DelayFileDeletion: the
data file 000010.sst written and closed with keep_local_sst_files set. -/
def delayDelAfterWrite : AwsEnvState :=
  (writeFileAndClose envKeepLocalEmpty "000010.sst" [105, 103, 111, 114]).2

/-- The state right after the test then calls DeleteFile on the data
file. -/
def delayDelAfterDelete : AwsEnvState :=
  (DeleteFile delayDelAfterWrite "000010.sst").2

/-- C8: the scenario of CloudTest::DelayFileDeletion (db_cloud_test.cc lines
538-579) evaluated on the code of src/cloud/aws_env.cc: create a data file,
delete it, probe existence immediately.  AwsEnv::DeleteFile removes the
object from the bucket and the local copy at once, with no deferred-delete
window, so the immediate existence probe already answers NotFound where the
test demands OK. -/
theorem C8_immediate_delete_eval :
    FileExists delayDelAfterWrite "000010.sst" = Status.ok
    ∧ (DeleteFile delayDelAfterWrite "000010.sst").1 = Status.ok
    ∧ FileExists delayDelAfterDelete "000010.sst" =
        Status.notFound "000010.sst"
    ∧ fmLookup delayDelAfterDelete.s3 "000010.sst" = none :=
  ⟨rfl, rfl, rfl, rfl⟩

/-- C3: AwsEnv::RenameFile classifies the target path; a data-file or
log-file target is rejected with NotSupported and neither the local
filesystem nor the bucket changes and no copy is issued; any other target is
renamed through the local filesystem only. -/
theorem C3_rename_dispatch (env : AwsEnvState) (src target : String) :
    ((IsSstFile target = true ∨ IsLogFile target = true) →
      RenameFile env src target =
        { status := .notSupported (src ++ " " ++ target),
          localFs := env.localFs, s3 := env.s3, s3CopyIssued := false })
    ∧ (IsSstFile target = false → IsLogFile target = false →
      RenameFile env src target =
        { status := (posixRename env.localFs src target).1,
          localFs := (posixRename env.localFs src target).2,
          s3 := env.s3, s3CopyIssued := false }) := by
  constructor
  · intro h
    cases h1 : IsSstFile target <;> cases h2 : IsLogFile target <;>
      simp [h1, h2] at h <;>
      simp [RenameFile, GetFileType, h1, h2]
  · intro h1 h2
    simp [RenameFile, GetFileType, h1, h2]

/-- C3 witness: renaming onto a data-file target is rejected with
NotSupported and changes nothing. -/
theorem C3_rename_dispatch_witness :
    RenameFile envKeepLocalEmpty "a" "b.sst" =
      { status := Status.notSupported ("a" ++ " " ++ "b.sst"),
        localFs := envKeepLocalEmpty.localFs, s3 := envKeepLocalEmpty.s3,
        s3CopyIssued := false } :=
  (C3_rename_dispatch envKeepLocalEmpty "a" "b.sst").1 (Or.inl rfl)

/-- C9: the trailing copy-object code of AwsEnv::RenameFile, which would
issue a CopyObject with a blank destination bucket and key, is unreachable:
every control path returns from one of the three earlier branches, so the
copy request is never issued. -/
theorem C9_copy_code_unreachable (env : AwsEnvState) (src target : String) :
    (RenameFile env src target).s3CopyIssued = false := by
  cases h1 : IsSstFile target <;> cases h2 : IsLogFile target <;>
    simp [RenameFile, GetFileType, h1, h2]

/-- The environment of the list-children claim: one data file in the bucket
and a stray local data file that is absent from the bucket. -/
def envListing : AwsEnvState :=
  { keepLocalSstFiles := true, s3 := [("/d/000001.sst", [1])],
    localFs := [("/d/000002.sst", [2]), ("/d/CURRENT", [3])], stream := [],
    cacheDir := "" }

/-- C4: AwsEnv::GetChildren returns exactly the union of the S3 listing of
the path and the local entries that are not data files; consequently, for a
data-file name, membership in the result coincides with membership in the
S3 listing, so a stray local data file absent from the bucket is
invisible. -/
theorem C4_getChildren_union (env : AwsEnvState) (path f : String) :
    (f ∈ GetChildren env path ↔
      (f ∈ GetChildrenFromS3 env path ∨
        (f ∈ posixGetChildren env.localFs path ∧ IsSstFile f = false)))
    ∧ (IsSstFile f = true →
      (f ∈ GetChildren env path ↔ f ∈ GetChildrenFromS3 env path)) := by
  have h1 : f ∈ GetChildren env path ↔
      (f ∈ GetChildrenFromS3 env path ∨
        (f ∈ posixGetChildren env.localFs path ∧ IsSstFile f = false)) := by
    simp [GetChildren, List.mem_append, List.mem_filter]
  refine ⟨h1, fun hs => ?_⟩
  rw [h1]
  simp [hs]

/-- C4 witness: the stray local data file of envListing is a member of the
list-children result exactly when the bucket listing contains it, which it
does not. -/
theorem C4_getChildren_union_witness :
    ("/d/000002.sst" ∈ GetChildren envListing "/d") ↔
      ("/d/000002.sst" ∈ GetChildrenFromS3 envListing "/d") :=
  (C4_getChildren_union envListing "/d" "/d/000002.sst").2 rfl

/-- The environment of the file-exists counterexample: a data file present
only locally, absent from the bucket, with keep_local_sst_files set. -/
def envLocalOnly : AwsEnvState :=
  { keepLocalSstFiles := true, s3 := [],
    localFs := [("000001.sst", [1])], stream := [], cacheDir := "" }

/-- C5 counterexample: with keep_local_sst_files set, AwsEnv::FileExists on
a data file consults the local filesystem, not the remote probe: here the
remote zero-length get answers NotFound yet FileExists answers OK, so
existence is not decided by the ranged get against the source. -/
theorem C5_counterexample :
    IsSstFile "000001.sst" = true
    ∧ fmLookup envLocalOnly.s3 "000001.sst" = none
    ∧ PathExistsInS3 envLocalOnly "000001.sst" true =
        Status.notFound "000001.sst"
    ∧ FileExists envLocalOnly "000001.sst" = Status.ok :=
  ⟨rfl, rfl, rfl, rfl⟩

/-- C5 amended: for a data file, FileExists decides existence by the
zero-length ranged get against the bucket exactly when keep_local_sst_files
is unset (success if the remote object is present and NotFound when it is
absent); when keep_local_sst_files is set it checks the local filesystem
instead. -/
theorem C5_fileExists_dispatch (env : AwsEnvState) (fname : String) :
    IsSstFile fname = true →
    ((env.keepLocalSstFiles = false →
        FileExists env fname = PathExistsInS3 env fname true
        ∧ (fmLookup env.s3 fname = none →
            FileExists env fname = Status.notFound fname)
        ∧ (∀ d, fmLookup env.s3 fname = some d →
            FileExists env fname = Status.ok))
    ∧ (env.keepLocalSstFiles = true →
        FileExists env fname = posixFileExists env.localFs fname)) := by
  intro hs
  constructor
  · intro hk
    have he : FileExists env fname = PathExistsInS3 env fname true := by
      simp [FileExists, GetFileType, hs, hk]
    refine ⟨he, ?_, ?_⟩
    · intro hn
      rw [he]
      simp [PathExistsInS3, s3Get, hn]
    · intro d hd
      rw [he]
      simp [PathExistsInS3, s3Get, hd]
  · intro hk
    simp [FileExists, GetFileType, hs, hk]

/-- The environment of the file-exists witness: a data file present in the
bucket, keep_local_sst_files unset. -/
def envRemoteOnly : AwsEnvState :=
  { keepLocalSstFiles := false, s3 := [("000001.sst", [1])],
    localFs := [], stream := [], cacheDir := "" }

/-- C5 witness: with keep_local_sst_files unset, the existence of a data
file present in the bucket is answered OK through the remote probe. -/
theorem C5_fileExists_dispatch_witness :
    FileExists envRemoteOnly "000001.sst" = Status.ok :=
  ((C5_fileExists_dispatch envRemoteOnly "000001.sst" rfl).1 rfl).2.2 [1] rfl

/-- C6 counterexample: deleting a data file whose object is absent from the
bucket is NOT a success: DeletePathInS3 maps the store's no-such-key answer
to Status::NotFound and AwsEnv::DeleteFile returns it to the caller as a
non-OK status. -/
theorem C6_counterexample :
    IsSstFile "000007.sst" = true
    ∧ fmLookup envKeepLocalEmpty.s3 "000007.sst" = none
    ∧ (DeleteFile envKeepLocalEmpty "000007.sst").1 =
        Status.notFound "000007.sst"
    ∧ ((DeleteFile envKeepLocalEmpty "000007.sst").1).isOk = false :=
  ⟨rfl, rfl, rfl, rfl⟩

/-- C6 amended: deletion of a data file is not idempotent-as-success: when
the object is absent from the bucket, the store's NotFound answer is
surfaced to the caller as the returned status of DeleteFile, the
environment is left unchanged, and the result is not a success. -/
theorem C6_delete_absent_surfaces_notFound (env : AwsEnvState)
    (fname : String) (hs : IsSstFile fname = true)
    (habs : fmLookup env.s3 fname = none) :
    (DeleteFile env fname).1 = Status.notFound fname
    ∧ (DeleteFile env fname).2 = env
    ∧ ((DeleteFile env fname).1).isOk = false := by
  simp [DeleteFile, GetFileType, hs, DeletePathInS3, habs, Status.isOk]

/-- C6 witness: deleting an absent data file in the empty environment
returns NotFound. -/
theorem C6_delete_absent_surfaces_notFound_witness :
    (DeleteFile envKeepLocalEmpty "000042.sst").1 =
      Status.notFound "000042.sst" :=
  (C6_delete_absent_surfaces_notFound envKeepLocalEmpty "000042.sst"
    rfl rfl).1

/-- Every value the retry loop can return is a success or TimedOut. -/
theorem retryGo_ok_or_timedOut (results : Nat → Status) (budget : Nat) :
    ∀ fuel i, (RetryGo results budget fuel i).isOk = true
      ∨ RetryGo results budget fuel i = Status.timedOut := by
  intro fuel
  induction fuel with
  | zero => intro i; exact Or.inr rfl
  | succ n ih =>
    intro i
    cases hok : (results i).isOk with
    | true =>
      left
      simp [RetryGo, hok]
    | false =>
      have hstep : RetryGo results budget (n + 1) i =
          if budget < (i + 1) * 100000 then Status.timedOut
          else RetryGo results budget n (i + 1) := by
        simp [RetryGo, hok]
      rw [hstep]
      split
      · exact Or.inr rfl
      · exact ih (i + 1)

/-- When every attempt fails, the retry loop ends in TimedOut. -/
theorem retryGo_allFail (results : Nat → Status) (budget : Nat)
    (hall : ∀ i, (results i).isOk = false) :
    ∀ fuel i, RetryGo results budget fuel i = Status.timedOut := by
  intro fuel
  induction fuel with
  | zero => intro i; rfl
  | succ n ih =>
    intro i
    have hstep : RetryGo results budget (n + 1) i =
        if budget < (i + 1) * 100000 then Status.timedOut
        else RetryGo results budget n (i + 1) := by
      simp [RetryGo, hall i]
    rw [hstep]
    split
    · rfl
    · exact ih (i + 1)

/-- C7 counterexample: a permanently failing operation (a non-transient
error such as an access denial) is NOT surfaced immediately: Retry keeps
retrying it and, once the budget expires, returns Status::TimedOut, which is
not the operation's own error. -/
theorem C7_counterexample :
    Retry (fun _ => Status.ioError "AccessDenied") 300000 = Status.timedOut
    ∧ Status.timedOut ≠ Status.ioError "AccessDenied" :=
  ⟨rfl, by decide⟩

/-- C7 amended: KinesisSystem::Retry retries EVERY failure, transient or
not, with its fixed 100 ms sleep; the caller only ever receives a success
or Status::TimedOut; a first successful attempt returns immediately, and an
operation that keeps failing until the budget expires yields TimedOut in
place of its own error. -/
theorem C7_retry_behaviour (results : Nat → Status) (budget : Nat) :
    ((Retry results budget).isOk = true
      ∨ Retry results budget = Status.timedOut)
    ∧ ((results 0).isOk = true → Retry results budget = results 0)
    ∧ ((∀ i, (results i).isOk = false) →
        Retry results budget = Status.timedOut) := by
  refine ⟨retryGo_ok_or_timedOut results budget _ 0, ?_,
    fun hall => retryGo_allFail results budget hall _ 0⟩
  intro h0
  show RetryGo results budget (budget / 100000 + 1) 0 = results 0
  simp [RetryGo, h0]

/-- C7 witness: an always-failing operation under a 100 ms budget ends in
TimedOut. -/
theorem C7_retry_behaviour_witness :
    Retry (fun _ => Status.ioError "x") 100000 = Status.timedOut :=
  (C7_retry_behaviour (fun _ => Status.ioError "x") 100000).2.2 (fun _ => rfl)

/-- An IOError status is never a success. -/
theorem isOk_ioError (m : String) : (Status.ioError m).isOk = false := rfl

/-- The constructor outcome in which every external call succeeded. -/
def ctorAllOk : CtorEffects :=
  { bucketCreate := Status.ok, kinesisClientOk := true,
    streamCreate := Status.ok, tailerStatus := Status.ok }

/-- C10: the factory hands out no invalid environment: every handle
NewAwsEnv returns satisfies IsValid().ok(), and a failure of bucket
creation, stream creation or tailer startup during construction makes
NewAwsEnv return null. -/
theorem C10_factory_only_valid (e : CtorEffects) :
    (∀ h, NewAwsEnv e = some h → (IsValid h).isOk = true)
    ∧ (e.bucketCreate.isOk = false → NewAwsEnv e = none)
    ∧ (e.streamCreate.isOk = false → NewAwsEnv e = none)
    ∧ (e.tailerStatus.isOk = false → NewAwsEnv e = none) := by
  refine ⟨?_, ?_, ?_, ?_⟩
  · intro h hsome
    cases hc : (constructorStatus e).isOk with
    | true =>
      have hh : h = { createBucketStatus := constructorStatus e } := by
        have := hsome.symm
        simpa [NewAwsEnv, IsValid, hc] using this
      rw [hh]
      exact hc
    | false =>
      exfalso
      simp [NewAwsEnv, IsValid, hc] at hsome
  · intro hb
    simp [NewAwsEnv, IsValid, constructorStatus, hb]
  · intro hstream
    cases hb : e.bucketCreate.isOk <;> cases hk : e.kinesisClientOk <;>
      simp [NewAwsEnv, IsValid, constructorStatus, hb, hk, hstream,
        isOk_ioError]
  · intro ht
    cases hb : e.bucketCreate.isOk <;> cases hk : e.kinesisClientOk <;>
      cases hst : e.streamCreate.isOk <;>
      simp [NewAwsEnv, IsValid, constructorStatus, hb, hk, hst, ht,
        isOk_ioError]

/-- C10 witness: the handle produced by a fully successful construction is
valid. -/
theorem C10_factory_only_valid_witness :
    (IsValid { createBucketStatus := Status.ok }).isOk = true :=
  (C10_factory_only_valid ctorAllOk).1 { createBucketStatus := Status.ok } rfl

/-- A write namespaced under an epoch different from the one the pointer
names changes nothing a reader observes. -/
theorem readerObserve_writeKey_other (s : CloudPrefixState) (e p : Nat)
    (k v : String) (hp : s.pointerEpoch = some p) (hne : e ≠ p)
    (k2 : String) :
    readerObserve (writeKey s e k v) k2 = readerObserve s k2 := by
  have hb : (e == p) = false := by
    simp [hne]
  simp [readerObserve, writeKey, hp, List.find?, hb]

/-- A batch of writes, all namespaced under an epoch different from the one
the pointer names, changes nothing a reader observes. -/
theorem readerObserve_applyWrites_other (e p : Nat)
    (ws : List (String × String)) :
    ∀ s : CloudPrefixState, s.pointerEpoch = some p → e ≠ p → ∀ k2,
      readerObserve (applyWrites s e ws) k2 = readerObserve s k2 := by
  induction ws with
  | nil => intro s _ _ k2; rfl
  | cons w rest ih =>
    intro s hp hne k2
    have hp2 : (writeKey s e w.1 w.2).pointerEpoch = some p := hp
    calc readerObserve (applyWrites (writeKey s e w.1 w.2) e rest) k2
        = readerObserve (writeKey s e w.1 w.2) k2 := ih _ hp2 hne k2
      _ = readerObserve s k2 :=
          readerObserve_writeKey_other s e p w.1 w.2 hp hne k2

/-- C2: in the cloud-manifest model, after writer W1 opens the shared
path and then writer W2 opens it, and each writes key k under its epoch, a
reader that subsequently opens the path observes W2's value for k, and any
batch of writes W1 issues after W2 opened changes nothing the reader
observes for any key. -/
theorem C2_last_writer_wins (s0 : CloudPrefixState) (k v1 v2 : String)
    (ws : List (String × String)) :
    let w1 := openAsWriter s0
    let w2 := openAsWriter w1.2
    let afterBoth := writeKey (writeKey w2.2 w1.1 k v1) w2.1 k v2
    let final := applyWrites afterBoth w1.1 ws
    readerObserve final k = some v2
    ∧ (∀ k2, readerObserve final k2 = readerObserve afterBoth k2) := by
  intro w1 w2 afterBoth final
  have hpointer : afterBoth.pointerEpoch = some (s0.nextEpoch + 1) := rfl
  have hne : s0.nextEpoch ≠ s0.nextEpoch + 1 :=
    Nat.ne_of_lt (Nat.lt_succ_self _)
  have hsame : ∀ k2, readerObserve final k2 = readerObserve afterBoth k2 :=
    fun k2 => readerObserve_applyWrites_other s0.nextEpoch (s0.nextEpoch + 1)
      ws afterBoth hpointer hne k2
  refine ⟨?_, hsame⟩
  rw [hsame k]
  show readerObserve afterBoth k = some v2
  have hw2 : w2.1 = s0.nextEpoch + 1 := rfl
  simp [readerObserve, writeKey, hpointer, hw2, List.find?]

end RocksCloud
